import Mathlib

/-!
Verification of the APsystems-EZ1-mqtt bridge against its design spec.

Shallow embedding of the Python sources:
  * `APsystemsEZ1mqtt/ecu.py`, `apsystems_ez1_mqtt/ecu.py` (night window,
    power-status device calls, constructor timeout check),
  * `APsystemsEZ1mqtt/mqtthandler.py` (command bridge payload mapping,
    publish paths, HomA / Home Assistant discovery init and clear),
  * `APsystemsEZ1mqtt/main.py`, `apsystems_ez1_mqtt/main.py` (polling loop
    drift compensation, command dispatch).

Instants and timestamps are modelled as rationals.  The external `astral`
daylight computation is modelled by its two outputs (daylight start and
daylight end of the current day); the external device client is modelled
by the value it returns (`Option` for fallible calls).
-/

deriving instance DecidableEq for Except

namespace APsystemsEZ1

/-! ### Night window (`ecu.py`)

`night()` does
  `night_end, night_start = daylight(...); night_end += timedelta(days=1);
   return night_start, night_end`
i.e. `daylight` returns `(daylightStart, daylightEnd)` of the current day,
night starts at `daylightEnd` and ends at `daylightStart + 24h`.
Times are rationals measured in hours from midnight of the current day. -/

/-- The night window `(night_start, night_end)` computed by `ECU.night` from
the daylight bounds of the current day. -/
def night (daylightStart daylightEnd : ℚ) : ℚ × ℚ :=
  (daylightEnd, daylightStart + 24)

/-- `ECU.wake_up_time`: the end of the night window. -/
def wake_up_time (daylightStart daylightEnd : ℚ) : ℚ :=
  (night daylightStart daylightEnd).2

/-- `ECU.is_night`: `stop_at_night and night_start < t < night_end`
(strict comparisons on both sides, as in the Python chained comparison). -/
def is_night (stop_at_night : Bool) (daylightStart daylightEnd t : ℚ) : Bool :=
  stop_at_night &&
    (decide ((night daylightStart daylightEnd).1 < t) &&
     decide (t < (night daylightStart daylightEnd).2))

/-! ### Constructor timeout check (`apsystems_ez1_mqtt/ecu.py`, `ECU.__init__`)

```
min_timeout: int = 2
if not timeout:
    timeout = 10 if ecu_config.update_interval > 10 else ecu_config.update_interval
if timeout <= min_timeout:
    raise ValueError(...)
```
`timeout` defaults to `None`; Python `not timeout` is also true for `0`. -/

/-- The effective request timeout picked by `ECU.__init__`: an explicit
non-zero `timeout` is kept, otherwise it is derived from the update
interval (capped at 10). -/
def effective_timeout (update_interval : ℤ) (timeout : Option ℤ) : ℤ :=
  match timeout with
  | none => if update_interval > 10 then 10 else update_interval
  | some v => if v = 0 then (if update_interval > 10 then 10 else update_interval) else v

/-- `ECU.__init__` timeout validation: raises `ValueError` iff the effective
timeout is `≤ 2`, otherwise returns the effective timeout. -/
def ecu_init (update_interval : ℤ) (timeout : Option ℤ) : Except String ℤ :=
  if effective_timeout update_interval timeout ≤ 2 then
    .error "timeout too low, must be > 2"
  else
    .ok (effective_timeout update_interval timeout)

/-! ### Command bridge payload mapping (`mqtthandler.py`, `on_status_power`)

```
status_map = {"0": False, "off": False, "false": False,
              "1": True, "on": True, "true": True}
status = status_map.get(message.payload.decode().lower())
if status is None: raise ValueError(...)
self.trigger_async_on_status_power(status)
```
-/

/-- Python `str.lower()` (ASCII case folding, per character). -/
def lower (s : String) : String :=
  ⟨s.data.map Char.toLower⟩

/-- The `status_map` dictionary of `on_status_power`, as an association list
looked up by exact key. -/
def status_map : List (String × Bool) :=
  [("0", false), ("off", false), ("false", false),
   ("1", true), ("on", true), ("true", true)]

/-- `on_status_power` payload handling: lower-case the payload, look it up in
`status_map`; an unknown payload raises `ValueError` (no enqueue), a known
one is handed to the dispatch trigger. -/
def on_status_power (payload : String) : Except String Bool :=
  match status_map.lookup (lower payload) with
  | none => .error "Invalid power status"
  | some status => .ok status

/-! ### Outbound status/limit publishing (`mqtthandler.py`) -/

/-- Events observable at the device and broker boundaries. -/
inductive Event
  | write (payload : String)
  | publish (topic : String) (payload : String)
  deriving DecidableEq, Repr

/-- `publish_status_power(status)`: publish `"1"`/`"0"` to the Power Status
topic when `status` is not `None`, otherwise publish nothing. -/
def publish_status_power (topic_base : String) (status : Option Bool) : List Event :=
  match status with
  | none => []
  | some s => [.publish (topic_base ++ "Power Status") (if s then "1" else "0")]

/-- `publish_max_power(max_power)`: publish the value to the Power Max Output
topic when it is not `None`, otherwise publish nothing. -/
def publish_max_power (topic_base : String) (max_power : Option ℤ) : List Event :=
  match max_power with
  | none => []
  | some m => [.publish (topic_base ++ "Power Max Output") (toString m)]

/-! ### Power-status write path (`ecu.py set_status_power`, `main.py
async_on_status_power`)

The device library's `Status` enum (`normal = 0`, `alarm = 1`); for the
power endpoints `0` means ON and `1` means OFF, so `Status.normal` means the
device reports ON.  `set_device_power_status` is the external device call,
modelled by its result (`none` = request failed). -/

inductive Status
  | normal
  | alarm
  deriving DecidableEq, Repr

/-- `ECU.set_status_power`: encode the requested boolean as `"0"` (ON) /
`"1"` (OFF), perform the device write, and decode the device's reported
post-write state as `result is Status.normal`; `None` when the write fails.
Returns the device-write event together with the decoded result. -/
def set_status_power (requested : Bool) (device_result : Option Status) :
    List Event × Option Bool :=
  ([.write (if requested then "0" else "1")],
   match device_result with
   | none => none
   | some r => some (r = Status.normal))

/-- `async_on_status_power`: one `set_status_power` device write followed by
`publish_status_power` of its result. -/
def async_on_status_power (topic_base : String) (requested : Bool)
    (device_result : Option Status) : List Event :=
  let (writes, status_power) := set_status_power requested device_result
  writes ++ publish_status_power topic_base status_power

/-- Whether an event is a device write. -/
def Event.isWrite : Event → Bool
  | .write _ => true
  | _ => false

/-- Whether an event is a broker publish. -/
def Event.isPublish : Event → Bool
  | .publish _ _ => true
  | _ => false

/-! ### Polling-loop drift compensation (`main.py`)

```
now = datetime.now()
if _ecu.is_night(now):
    sleeptime = _ecu.wake_up_time().timestamp() - now.timestamp()
else:
    sleeptime = interval
    ... device call ...
sleeptime = max(0, sleeptime - (datetime.now().timestamp() - now.timestamp()))
```
-/

/-- The planned sleep chosen at cycle start: the delta to the wake-up time
during night, the configured interval otherwise. -/
def planned_sleep (night : Bool) (wake_delta interval : ℚ) : ℚ :=
  if night then wake_delta else interval

/-- The compensated sleep duration of one polling cycle:
`max(0, sleeptime - elapsed)` where `elapsed` is the time spent since the
cycle-start instant `now`. -/
def cycle_sleep (night : Bool) (wake_delta interval elapsed : ℚ) : ℚ :=
  max 0 (planned_sleep night wake_delta interval - elapsed)

/-! ### Topic/discovery registry (`mqtthandler.py`, `_mqtt_d`)

One row per telemetry/control field of the `_mqtt_d` dictionary.  `cls`
embeds the Python `'class'` entry, `none` embedding Python `None`. -/

structure MqttEntry where
  key : String
  topic : String
  type : String
  room : String
  unit : String
  comp : Option String
  cls : Option String
  min : Option ℤ := none
  max : Option ℤ := none
  deriving DecidableEq, Repr

def mqtt_pt : MqttEntry := ⟨"pt", "Power", "text", "Home", " W", some "sensor", some "power", none, none⟩
def mqtt_p1 : MqttEntry := ⟨"p1", "Power P1", "text", "", " W", some "sensor", some "power", none, none⟩
def mqtt_p2 : MqttEntry := ⟨"p2", "Power P2", "text", "", " W", some "sensor", some "power", none, none⟩
def mqtt_et : MqttEntry := ⟨"et", "Energy today", "text", "Home", " kWh", some "sensor", some "energy", none, none⟩
def mqtt_e1 : MqttEntry := ⟨"e1", "Energy today P1", "text", "", " kWh", some "sensor", some "energy", none, none⟩
def mqtt_e2 : MqttEntry := ⟨"e2", "Energy today P2", "text", "", " kWh", some "sensor", some "energy", none, none⟩
def mqtt_lt : MqttEntry := ⟨"lt", "Energy lifetime", "text", "", " kWh", some "sensor", some "_energy_increasing", none, none⟩
def mqtt_l1 : MqttEntry := ⟨"l1", "Energy lifetime P1", "text", "", " kWh", some "sensor", some "_energy_increasing", none, none⟩
def mqtt_l2 : MqttEntry := ⟨"l2", "Energy lifetime P2", "text", "", " kWh", some "sensor", some "_energy_increasing", none, none⟩
def mqtt_ps : MqttEntry := ⟨"ps", "Power Status", "switch", "", "", some "switch", none, none, none⟩
def mqtt_po : MqttEntry := ⟨"po", "Power Max Output", "text", "", " W", some "number", some "power", some 30, some 800⟩
def mqtt_id : MqttEntry := ⟨"id", "Device id", "text", "", "", none, none, none, none⟩
def mqtt_ip : MqttEntry := ⟨"ip", "Device IP", "text", "", "", none, none, none, none⟩
def mqtt_ve : MqttEntry := ⟨"ve", "Version", "text", "", "", none, none, none, none⟩
def mqtt_ti : MqttEntry := ⟨"ti", "Start time", "text", "", "", some "sensor", some "_datetime", none, none⟩
def mqtt_wi : MqttEntry := ⟨"wi", "State", "text", "", "", none, none, none, none⟩

/-- The `_mqtt_d` dictionary in its (insertion-ordered) iteration order. -/
def mqtt_d : List MqttEntry :=
  [mqtt_pt, mqtt_p1, mqtt_p2, mqtt_et, mqtt_e1, mqtt_e2, mqtt_lt, mqtt_l1,
   mqtt_l2, mqtt_ps, mqtt_po, mqtt_id, mqtt_ip, mqtt_ve, mqtt_ti, mqtt_wi]

/-- The configuration fields of `MQTTConfig` that the discovery publisher
reads. -/
structure MqttConfig where
  homa_enabled : Bool
  hass_enabled : Bool
  homa_systemid : String
  hass_device_id : String
  topic_prefix : String
  deriving DecidableEq, Repr

/-- `MQTTHandler._get_topic_base`. -/
def get_topic_base (c : MqttConfig) : String :=
  if c.homa_enabled then "/devices/" ++ c.homa_systemid ++ "/controls/"
  else c.topic_prefix

/-- Python `topic.replace(" ", "-")` for the single-character pattern. -/
def replace_space_dash (s : String) : String :=
  ⟨s.data.map (fun ch => if ch = ' ' then '-' else ch)⟩

/-- The Home Assistant `object_id`:
`hass_device_id + "-" + dict['topic'].replace(" ", "-")`. -/
def object_id (c : MqttConfig) (e : MqttEntry) : String :=
  c.hass_device_id ++ "-" ++ replace_space_dash e.topic

/-- The discovery config topic `_hass_config` publishes for one row:
`homeassistant/<comp>/<object_id>/config`, or nothing when `comp` is
`None`. -/
def hass_config_topic (c : MqttConfig) (e : MqttEntry) : Option String :=
  e.comp.map (fun comp => "homeassistant/" ++ comp ++ "/" ++ object_id c e ++ "/config")

/-- The topics `hass_init` publishes (retained registration messages), one
per row whose `comp` is set; nothing when the hub scheme is disabled. -/
def hass_init_topics (c : MqttConfig) : List String :=
  if c.hass_enabled then mqtt_d.filterMap (hass_config_topic c) else []

/-- The topics `homa_init` publishes: per row the four `/meta/…` topics,
then the device-identity and last-will value topics (`id`, `ip`, `ve`,
`ti`, `wi`), then the device-level `meta/name` and `meta/room` (the
topic base with `/controls/` replaced by `/meta/`); nothing when the
generic-bus scheme is disabled. -/
def homa_init_topics (c : MqttConfig) : List String :=
  if !c.homa_enabled then []
  else
    let base := get_topic_base c
    let meta_base := "/devices/" ++ c.homa_systemid ++ "/meta/"
    (mqtt_d.flatMap fun e =>
      [base ++ e.topic ++ "/meta/type", base ++ e.topic ++ "/meta/order",
       base ++ e.topic ++ "/meta/room", base ++ e.topic ++ "/meta/unit"])
    ++ [base ++ mqtt_id.topic, base ++ mqtt_ip.topic, base ++ mqtt_ve.topic,
        base ++ mqtt_ti.topic, base ++ mqtt_wi.topic]
    ++ [meta_base ++ "name", meta_base ++ "room"]

/-- All topics the discovery init (`hass_init` followed by `homa_init`, as
in `main`) publishes retained messages to. -/
def init_topics (c : MqttConfig) : List String :=
  hass_init_topics c ++ homa_init_topics c

/-- The six per-row topics `clear_all_topics` always clears for a row:
the plain-prefix value topic, the HomA value topic and the four HomA meta
topics. -/
def clear_row_topics (c : MqttConfig) (e : MqttEntry) : List String :=
  let homa_base := "/devices/" ++ c.homa_systemid ++ "/controls/"
  [c.topic_prefix ++ e.topic,
   homa_base ++ e.topic,
   homa_base ++ e.topic ++ "/meta/type",
   homa_base ++ e.topic ++ "/meta/order",
   homa_base ++ e.topic ++ "/meta/room",
   homa_base ++ e.topic ++ "/meta/unit"]

/-- The Home Assistant config topic `clear_all_topics` clears for a row
whose `'class'` is set: the row's `'class'` (not its `'comp'`) is compared
against `"number"` and `"switch"`, anything else falling back to
`sensor`. -/
def hass_clear_topic (c : MqttConfig) (e : MqttEntry) (cl : String) : String :=
  if cl = "number" then "homeassistant/number/" ++ object_id c e ++ "/config"
  else if cl = "switch" then "homeassistant/switch/" ++ object_id c e ++ "/config"
  else "homeassistant/sensor/" ++ object_id c e ++ "/config"

/-- The per-row loop of `clear_all_topics`: each row gets its six clears;
a row whose `'class'` is `None` hits `break` — its Home Assistant config
topic is not cleared and no later row is processed at all. -/
def clear_rows (c : MqttConfig) : List MqttEntry → List String
  | [] => []
  | e :: rest =>
    clear_row_topics c e ++
      match e.cls with
      | none => []
      | some cl => hass_clear_topic c e cl :: clear_rows c rest

/-- All topics `clear_all_topics` publishes an empty payload to: the
device-level `meta/name` and `meta/room`, then the row loop. -/
def clear_all_topics (c : MqttConfig) : List String :=
  ["/devices/" ++ c.homa_systemid ++ "/meta/name",
   "/devices/" ++ c.homa_systemid ++ "/meta/room"]
  ++ clear_rows c mqtt_d

/-! ### Value publish path (`mqtthandler.py`, `_parse_data`)

`ReturnOutputData` of the device library: integer watts per channel and
kWh energies.  The kWh fields are IEEE doubles in Python; they are
modelled as rationals, and Python's `%0.3f` / `%0.1f` fixed-point
formatting as rounding to the nearest multiple of `10^-prec` (the
scenario values are not ties, so the tie-breaking rule is immaterial). -/

structure ReturnOutputData where
  p1 : ℤ
  p2 : ℤ
  e1 : ℚ
  e2 : ℚ
  te1 : ℚ
  te2 : ℚ
  deriving DecidableEq, Repr

/-- Rounding to the nearest integer (halves up): `⌊q + 1/2⌋`, computed on
the numerator/denominator pair so it evaluates by kernel reduction. -/
def round_nearest (q : ℚ) : ℤ :=
  Int.fdiv (2 * q.num + q.den) (2 * q.den)

/-- Digit rendering of a value already scaled by `10^prec`: integer part,
decimal point, zero-padded fractional part. -/
def format_scaled (prec : ℕ) (scaled : ℤ) : String :=
  (if scaled < 0 then "-" else "")
    ++ toString (scaled.natAbs / 10 ^ prec) ++ "."
    ++ String.mk (List.replicate (prec - (toString (scaled.natAbs % 10 ^ prec)).length) '0')
    ++ toString (scaled.natAbs % 10 ^ prec)

/-- Fixed-point decimal formatting of a rational with `prec` digits after
the point, as Python `f'{x:0.3f}'` / `f'{x:0.1f}'` produce for the non-tie
values at hand: scale by `10^prec`, round to nearest, render the digits. -/
def format_fixed (prec : ℕ) (q : ℚ) : String :=
  format_scaled prec (round_nearest (q * ((10 : ℤ) ^ prec : ℤ)))

/-- `MQTTHandler._parse_data`: the ordered topic → payload map, with the
derived totals `p1+p2`, `e1+e2` and `te1+te2` in the `Power`,
`Energy today` and `Energy lifetime` rows. -/
def parse_data (topic_base : String) (data : ReturnOutputData) : List (String × String) :=
  [(topic_base ++ mqtt_pt.topic, toString (data.p1 + data.p2)),
   (topic_base ++ mqtt_p1.topic, toString data.p1),
   (topic_base ++ mqtt_p2.topic, toString data.p2),
   (topic_base ++ mqtt_et.topic, format_fixed 3 (data.e1 + data.e2)),
   (topic_base ++ mqtt_e1.topic, format_fixed 3 data.e1),
   (topic_base ++ mqtt_e2.topic, format_fixed 3 data.e2),
   (topic_base ++ mqtt_lt.topic, format_fixed 1 (data.te1 + data.te2)),
   (topic_base ++ mqtt_l1.topic, format_fixed 1 data.te1),
   (topic_base ++ mqtt_l2.topic, format_fixed 1 data.te2)]

end APsystemsEZ1

namespace APsystemsEZ1

/-! ## Theorems -/

/-- C7: In every polling cycle the computed sleep duration equals
`max(0, plannedInterval − elapsedSinceCycleStart)` (with the planned
interval being the wake-up delta during night and the configured interval
otherwise), and it is never negative. -/
theorem cycle_sleep_drift_compensation (night : Bool) (wake_delta interval elapsed : ℚ) :
    cycle_sleep night wake_delta interval elapsed
      = max 0 (planned_sleep night wake_delta interval - elapsed)
    ∧ 0 ≤ cycle_sleep night wake_delta interval elapsed := by
  refine ⟨rfl, ?_⟩
  unfold cycle_sleep
  exact le_max_left 0 _

/-- C2 (counterexample): with night mode enabled and daylight from 6h to 18h,
the night window starts exactly at `daylightEnd = 18`, yet `is_night` at
`t = 18` returns `false` — the claim says a query at exactly `daylightEnd`
returns `true` (half-open interval `[start, end)`). -/
theorem is_night_start_boundary_cex :
    (night 6 18).1 = 18 ∧ is_night true 6 18 18 = false := by
  constructor
  · rfl
  · decide

/-- C2 (amended): with night mode enabled, `is_night t` is `true` iff `t`
lies strictly inside the open interval `(start, end)` of the night window;
in particular it is `false` at `t = start` and at `t = end` (both
boundaries excluded, not a half-open interval). -/
theorem is_night_open_interval (stop : Bool) (ds de t : ℚ) :
    (is_night stop ds de t = true ↔
      stop = true ∧ (night ds de).1 < t ∧ t < (night ds de).2)
    ∧ is_night stop ds de (night ds de).1 = false
    ∧ is_night stop ds de (night ds de).2 = false := by
  refine ⟨?_, ?_, ?_⟩
  · simp [is_night]
  · simp [is_night]
  · simp [is_night]

/-- C6 (counterexample): for daylight from 6h to 18h the night window
computed by `ECU.night` is `(18, 30)` — it ends at the next daylight start
(`daylightStart + 24h = 30`), not at `daylightEnd + 24h = 42` as the claim
states. -/
theorem night_window_cex :
    night 6 18 = (18, 30) ∧ (18 : ℚ) + 24 = 42 ∧ night 6 18 ≠ (18, 18 + 24) := by
  refine ⟨by norm_num [night], by norm_num, ?_⟩
  intro h
  have h2 := congrArg Prod.snd h
  norm_num [night] at h2

/-- C6 (amended): the night window equals
`[daylightEnd(t), daylightStart(t) + 24h]` — night begins at dusk and ends
at the *next dawn*, i.e. the same day's daylight start shifted by one day —
and for any query instant `t` inside the current day the window contains or
follows `t`: either `t` precedes the window start, or `t` lies inside the
window. -/
theorem night_window_dusk_to_next_dawn (ds de t : ℚ)
    (hds : 0 ≤ ds) (ht : t < 24) :
    night ds de = (de, ds + 24)
    ∧ t < (night ds de).2
    ∧ (t ≤ (night ds de).1 ∨ ((night ds de).1 ≤ t ∧ t < (night ds de).2)) := by
  have hend : t < (night ds de).2 := by
    simp only [night]
    linarith
  refine ⟨rfl, hend, ?_⟩
  rcases le_or_lt t (night ds de).1 with h | h
  · exact Or.inl h
  · exact Or.inr ⟨le_of_lt h, hend⟩

/-- Witness for C6's amended theorem at daylight 6h–18h and query instant
`t = 12` (noon). -/
theorem night_window_dusk_to_next_dawn_witness :
    night 6 18 = (18, 6 + 24)
    ∧ (12 : ℚ) < (night 6 18).2
    ∧ ((12 : ℚ) ≤ (night 6 18).1 ∨ ((night 6 18).1 ≤ 12 ∧ (12 : ℚ) < (night 6 18).2)) :=
  night_window_dusk_to_next_dawn 6 18 12 (by norm_num) (by norm_num)

/-- C9 (counterexample): with update interval 5 and no explicit timeout the
effective timeout is 5 and construction succeeds (`ecu_init` returns `ok`),
although the update interval 5 does not exceed the request timeout plus 3
(`5 ≤ 5 + 3`, and also `5 ≤ 10 + 3` for the nominal 10s timeout) — the
claim says construction must fail for every such configuration. -/
theorem ecu_init_cex :
    ecu_init 5 none = .ok 5 ∧ effective_timeout 5 none = 5
    ∧ (5 : ℤ) ≤ 5 + 3 ∧ (5 : ℤ) ≤ 10 + 3 := by
  refine ⟨by decide, by decide, by decide, by decide⟩

/-- C9 (amended): `ECU.__init__` succeeds iff the effective request timeout
— the explicit non-zero timeout, or else the update interval capped at 10 —
is strictly greater than 2 seconds; no minimum of the update interval
relative to the timeout is enforced. -/
theorem ecu_init_min_timeout (ui : ℤ) (t : Option ℤ) :
    ((ecu_init ui t).isOk = true ↔ 2 < effective_timeout ui t)
    ∧ (ecu_init ui t = .ok (effective_timeout ui t)
       ∨ ecu_init ui t = .error "timeout too low, must be > 2") := by
  unfold ecu_init
  split_ifs with h
  · refine ⟨?_, Or.inr rfl⟩
    simp only [Except.isOk, Except.toBool]
    constructor
    · intro hfalse; cases hfalse
    · intro hlt; omega
  · refine ⟨?_, Or.inl rfl⟩
    simp only [Except.isOk, Except.toBool]
    constructor
    · intro _; omega
    · intro _; trivial

/-- C5: the inbound power-status payload mapping — a payload equal
case-insensitively to `"1"`, `"on"` or `"true"` maps to power-on, `"0"`,
`"off"` or `"false"` maps to power-off, and any other payload raises a
validation error (no dispatch). -/
theorem on_status_power_mapping (payload : String) :
    on_status_power payload =
      (if lower payload ∈ ["1", "on", "true"] then .ok true
       else if lower payload ∈ ["0", "off", "false"] then .ok false
       else .error "Invalid power status") := by
  unfold on_status_power
  generalize lower payload = t
  by_cases h0 : t = "0" <;> by_cases h1 : t = "off" <;> by_cases h2 : t = "false" <;>
    by_cases h3 : t = "1" <;> by_cases h4 : t = "on" <;> by_cases h5 : t = "true" <;>
    simp_all [status_map, List.lookup, beq_iff_eq, beq_eq_false_iff_ne]
  simp only [status_map, List.lookup, beq_false_of_ne h0, beq_false_of_ne h1,
    beq_false_of_ne h2, beq_false_of_ne h3, beq_false_of_ne h4, beq_false_of_ne h5]

/-- C4: a failed device read or write (result `None`) of PowerStatus or
MaxPowerLimit produces no broker publish at all: the corresponding publish
function emits an empty event list, leaving the retained broker value
untouched. -/
theorem failed_refresh_publishes_nothing (topic_base : String) :
    publish_status_power topic_base none = []
    ∧ publish_max_power topic_base none = [] :=
  ⟨rfl, rfl⟩

/-- C3: dispatching an inbound power command performs exactly one device
write, and the full event trace is that write followed by at most one
republish: none when the write failed (`device_result = none`), and exactly
one whose payload encodes the device's reported post-write state
(`"1"` iff the device reported `Status.normal`, i.e. ON) otherwise —
independent of the requested value, so never an optimistic echo. -/
theorem command_dispatch_exactly_once (base : String) (requested : Bool)
    (device_result : Option Status) :
    ((async_on_status_power base requested device_result).filter Event.isWrite).length = 1
    ∧ async_on_status_power base requested device_result
        = .write (if requested then "0" else "1")
          :: (match device_result with
              | none => []
              | some r => [.publish (base ++ "Power Status")
                             (if r = Status.normal then "1" else "0")]) := by
  cases device_result with
  | none => cases requested <;> exact ⟨rfl, rfl⟩
  | some r => cases r <;> cases requested <;> exact ⟨rfl, rfl⟩

/-- A concrete configuration with both discovery schemes enabled. -/
def cfg_both : MqttConfig := ⟨true, true, "123456-solar", "APS", "aps/"⟩

/-- C1 (failing evaluation): with both schemes enabled, `init` (`hass_init`
then `homa_init`) publishes retained messages to the HomA meta topic of the
`Power Max Output` row, to the Home Assistant switch config of the
`Power Status` row and to the `Device id` value topic, but
`clear_all_topics` — which stops its row loop at the first row whose
`'class'` is `None` and matches the Home Assistant component against
`'class'` instead of `'comp'` — never publishes an empty payload to any of
them, so `init` followed by `clear` does not restore the retained-topic
set. -/
theorem clear_misses_init_topics :
    ((init_topics cfg_both).contains
        "/devices/123456-solar/controls/Power Max Output/meta/type" = true
      ∧ (clear_all_topics cfg_both).contains
        "/devices/123456-solar/controls/Power Max Output/meta/type" = false)
    ∧ ((init_topics cfg_both).contains
        "homeassistant/switch/APS-Power-Status/config" = true
      ∧ (clear_all_topics cfg_both).contains
        "homeassistant/switch/APS-Power-Status/config" = false)
    ∧ ((init_topics cfg_both).contains
        "/devices/123456-solar/controls/Device id" = true
      ∧ (clear_all_topics cfg_both).contains
        "/devices/123456-solar/controls/Device id" = false) := by
  decide

/-- The output reading of the C8 scenario. -/
def sample_reading : ReturnOutputData := ⟨120, 95, 1.234, 0.987, 543.2, 210.0⟩

/-- C8: for the reading `{p1=120, p2=95, e1=1.234, e2=0.987, te1=543.2,
te2=210.0}` the value-publish path produces payload `"215"` on the `Power`
topic, `"2.221"` on the `Energy today` topic and `"753.2"` on the
`Energy lifetime` topic. -/
theorem parse_data_scenario :
    (parse_data "aps/" sample_reading).lookup ("aps/" ++ mqtt_pt.topic) = some "215"
    ∧ (parse_data "aps/" sample_reading).lookup ("aps/" ++ mqtt_et.topic) = some "2.221"
    ∧ (parse_data "aps/" sample_reading).lookup ("aps/" ++ mqtt_lt.topic) = some "753.2" := by
  unfold parse_data sample_reading
  rw [show format_fixed 3 ((1.234 : ℚ) + 0.987) = "2.221" by
    unfold format_fixed
    rw [show ((1.234 : ℚ) + 0.987) * ((10 : ℤ) ^ (3 : ℕ) : ℤ) = (2221 : ℚ) by norm_num]
    decide]
  rw [show format_fixed 1 ((543.2 : ℚ) + 210.0) = "753.2" by
    unfold format_fixed
    rw [show ((543.2 : ℚ) + 210.0) * ((10 : ℤ) ^ (1 : ℕ) : ℤ) = (7532 : ℚ) by norm_num]
    decide]
  decide

/-- C10: `publish_status_power` encodes `true` as `"1"` and `false` as `"0"`,
and feeding that payload back through the inbound command mapping of
`on_status_power` recovers the same boolean. -/
theorem status_power_roundtrip (s : Bool) :
    publish_status_power "base/" (some s)
      = [.publish "base/Power Status" (if s then "1" else "0")]
    ∧ on_status_power (if s then "1" else "0") = .ok s := by
  cases s <;> exact ⟨rfl, by decide⟩
